import Mathlib

/-!
Verification of the pdf-viewer page component
(`src/app/pages/pdf-viewer/[pdfId].vue`).

Shallow embedding: JavaScript numbers are modelled as rationals (ℚ),
strings as `String`, absent/undefined values as `Option`, and the
reactive refs of the component as fields of an explicit `ViewerState`
record. Asynchronous steps (the metadata fetch, the rasterization
engine calls) are modelled by oracle functions returning `Except` /
explicit outcome values, and the interleaving of in-flight fetches with
route navigation is modelled by an explicit event machine.

The file is organised as definitions first (the embedding of the
component's data model and operations), then the theorems.
-/

namespace PdfViewer

/-- The `BoundingBox` interface of the component (element_id, document-space
coordinates, extracted text). Coordinates are JS numbers, modelled as ℚ. -/
structure BoundingBox where
  element_id : String
  x : ℚ
  y : ℚ
  width : ℚ
  height : ℚ
  text : String
deriving DecidableEq

/-- The viewport object returned by `page.getViewport({ scale })`:
`{ width, height, scale }`. -/
structure Viewport where
  scale : ℚ
  width : ℚ
  height : ℚ
deriving DecidableEq

/-- The containment test of `handleCanvasClick`: the box scaled into canvas
space (`box.x * viewport.scale`, …) contains the click point, inclusive of
edges (`x >= canvasX && x <= canvasX + canvasWidth && y >= canvasY &&
y <= canvasY + canvasHeight`). -/
def boxContains (viewport : Viewport) (box : BoundingBox) (x y : ℚ) : Bool :=
  let canvasX := box.x * viewport.scale
  let canvasY := box.y * viewport.scale
  let canvasWidth := box.width * viewport.scale
  let canvasHeight := box.height * viewport.scale
  decide (canvasX ≤ x) && decide (x ≤ canvasX + canvasWidth) &&
  decide (canvasY ≤ y) && decide (y ≤ canvasY + canvasHeight)

/-- The `for (const box of boundingBoxes)` loop of `handleCanvasClick`:
returns the element_id of the first box containing the click point (the
loop `return`s on the first hit), `none` if no box contains it. -/
def clickFirstHit (viewport : Viewport) (x y : ℚ) : List BoundingBox → Option String
  | [] => none
  | box :: rest =>
    if boxContains viewport box x y then some box.element_id
    else clickFirstHit viewport x y rest

/-- `handleCanvasClick`, as a function from the shared state it reads
(`boundingBoxes`, `pdfPageView`) and the canvas-relative click coordinates
to the element id it focuses: `if (!viewport) return;` yields `none` when
the page has not been rendered, otherwise the first-hit loop runs. -/
def handleCanvasClick (boundingBoxes : List BoundingBox)
    (pdfPageView : Option Viewport) (x y : ℚ) : Option String :=
  match pdfPageView with
  | none => none
  | some viewport => clickFirstHit viewport x y boundingBoxes

/-- A raw box record as it arrives in the metadata payload: the identifier
fields may each be absent (`none`) or present; a present-but-empty string is
`some ""` (falsy in JS). Coordinates and text pass through the spread. -/
structure RawBox where
  element_id : Option String
  id : Option String
  x : ℚ
  y : ℚ
  width : ℚ
  height : ℚ
  text : String
deriving DecidableEq

/-- JS `a || b` on string-or-undefined values: yields `b` whenever `a` is
falsy (absent or the empty string), otherwise `a`. -/
def jsOrString (a b : Option String) : Option String :=
  match a with
  | some s => if s = "" then b else some s
  | none => b

/-- The result of `{ ...box, element_id: box.element_id || box.id }`: the
spread copies every field (including `id`), then `element_id` is
overwritten with the `||` of the two identifier fields. -/
structure NormBox where
  element_id : Option String
  id : Option String
  x : ℚ
  y : ℚ
  width : ℚ
  height : ℚ
  text : String
deriving DecidableEq

/-- The per-record normalization in `fetchPdfData`
(`boundingBoxes.map(box => ({ ...box, element_id: box.element_id || box.id }))`). -/
def normalizeBox (box : RawBox) : NormBox :=
  { element_id := jsOrString box.element_id box.id
    id := box.id
    x := box.x
    y := box.y
    width := box.width
    height := box.height
    text := box.text }

/-- The shared reactive state of the component: the refs `pdfId`,
`boundingBoxes`, `pdfFileUrl`, `isLoading`, `error`, `pdfPageView`, plus
the raster surface content (`raster = some url` after a successful paint
of the document at `url`, `none` when blank/cleared). Errors are modelled
by their message strings. -/
structure ViewerState where
  pdfId : String
  boundingBoxes : List NormBox
  pdfFileUrl : Option String
  isLoading : Bool
  error : Option String
  pdfPageView : Option Viewport
  raster : Option String
deriving DecidableEq

/-- Oracle for the environment of `loadAndRenderPdf`: whether the canvas
element and its 2d context are available, and the outcomes of the
rasterization engine calls (`getDocument`/`loadingTask.promise`,
`getPage`, `page.render`). `viewportDims` gives the width/height the
engine reports for the page at the requested scale. -/
structure Engine where
  canvasOk : Bool
  contextOk : Bool
  getDocument : String → Except String Unit
  getPage : Nat → Except String Unit
  viewportDims : ℚ × ℚ
  render : Except String Unit

/-- Observable operations of one load cycle, in order: the metadata
request and the rasterization-pipeline steps. -/
inductive Op where
  | fetchMetadata (url : String)
  | clearRect
  | getDocument (url : String)
  | getPage (n : Nat)
  | getViewport (scale : ℚ)
  | setCanvasSize (w h : ℚ)
  | paint
deriving DecidableEq

/-- `loadAndRenderPdf(url)`: checks the canvas and context, clears the
raster (`context.clearRect`), then loads the document, fetches page 1,
computes the viewport at scale 1.5, stores it in `pdfPageView`, sizes the
canvas, and paints; any engine failure is caught locally and recorded as
`error := "Failed to load PDF: " ++ msg` without rethrowing. Returns the
updated state and the trace of performed operations. -/
def loadAndRenderPdf (eng : Engine) (url : String) (s : ViewerState) :
    ViewerState × List Op :=
  if eng.canvasOk = false then
    ({ s with error := some "Canvas element not found." }, [])
  else if eng.contextOk = false then
    ({ s with error := some "Failed to get canvas context" }, [])
  else
    let s0 := { s with raster := none }
    match eng.getDocument url with
    | .error e =>
      ({ s0 with error := some ("Failed to load PDF: " ++ e) },
       [Op.clearRect, Op.getDocument url])
    | .ok _ =>
      match eng.getPage 1 with
      | .error e =>
        ({ s0 with error := some ("Failed to load PDF: " ++ e) },
         [Op.clearRect, Op.getDocument url, Op.getPage 1])
      | .ok _ =>
        let viewport : Viewport :=
          { scale := 3/2, width := eng.viewportDims.1, height := eng.viewportDims.2 }
        let s1 := { s0 with pdfPageView := some viewport }
        match eng.render with
        | .error e =>
          ({ s1 with error := some ("Failed to load PDF: " ++ e) },
           [Op.clearRect, Op.getDocument url, Op.getPage 1,
            Op.getViewport (3/2), Op.setCanvasSize viewport.width viewport.height])
        | .ok _ =>
          ({ s1 with raster := some url },
           [Op.clearRect, Op.getDocument url, Op.getPage 1,
            Op.getViewport (3/2), Op.setCanvasSize viewport.width viewport.height,
            Op.paint])

/-- The outcome of the awaited `useFetch(metadataUrl)` call:
`fetchErrorVal` set, no payload, or a payload whose `cloudStoragePath`
and `boundingBoxes` fields may each be absent. -/
inductive FetchOutcome where
  | fetchError (msg : String)
  | noData
  | payload (cloudStoragePath : Option String) (boundingBoxes : Option (List RawBox))
deriving DecidableEq

/-- The reserved placeholder value shipped in `nuxt.config.ts`. -/
def placeholderUrl : String := "REPLACE_WITH_YOUR_ACTUAL_API_BASE_URL"

/-- The message of the configuration error thrown by `fetchPdfData`. -/
def configErrorMsg : String :=
  "API base URL is not configured in nuxt.config.ts. Please replace the placeholder."

/-- The `catch` block of `fetchPdfData`: records the error, clears
`boundingBoxes` and `pdfFileUrl`, and clears the canvas if it exists.
Note it does not touch `pdfPageView`. -/
def catchClear (eng : Engine) (msg : String) (s : ViewerState) : ViewerState :=
  { s with
    error := some msg
    boundingBoxes := []
    pdfFileUrl := none
    raster := if eng.canvasOk then none else s.raster }

/-- The `finally` block of `fetchPdfData`: `isLoading.value = false`. -/
def finallyStep (s : ViewerState) : ViewerState :=
  { s with isLoading := false }

/-- The synchronous prefix of `fetchPdfData(id)` up to the awaited
metadata fetch: sets `isLoading`/`error`, then checks the configured base
URL against the placeholder and against being unset before building the
metadata URL. On a configuration error the whole catch/finally runs
synchronously (`inl`); otherwise the state at the suspension point and
the metadata URL are returned (`inr`). -/
def fetchStart (apiBaseUrl : String) (eng : Engine) (id : String)
    (s : ViewerState) : ViewerState ⊕ (ViewerState × String) :=
  let s1 := { s with isLoading := true, error := none }
  if apiBaseUrl = placeholderUrl ∨ apiBaseUrl = "" then
    Sum.inl (finallyStep (catchClear eng configErrorMsg s1))
  else
    Sum.inr (s1, apiBaseUrl ++ "/documents/" ++ id)

/-- The continuation of `fetchPdfData` after the metadata fetch resolves
(lines 99–130 of the component): throws on a fetch error or missing
payload, commits `pdfFileUrl` then maps the payload boxes (a missing or
non-array `boundingBoxes` field makes `.map` throw a TypeError), throws
if the storage path is falsy, and otherwise awaits `loadAndRenderPdf`.
Every throw lands in the catch block, and the finally block always runs.
Note: this continuation never compares the originating identifier with
the current `pdfId`. -/
def fetchResume (eng : Engine) (outcome : FetchOutcome) (s : ViewerState) :
    ViewerState × List Op :=
  match outcome with
  | .fetchError msg =>
    (finallyStep (catchClear eng ("Error fetching metadata: " ++ msg) s), [])
  | .noData =>
    (finallyStep (catchClear eng "No data returned from metadata API." s), [])
  | .payload path rawBoxes =>
    let s1 := { s with pdfFileUrl := path }
    match rawBoxes with
    | none =>
      (finallyStep (catchClear eng "TypeError: cannot read map of undefined" s1), [])
    | some raws =>
      let s2 := { s1 with boundingBoxes := raws.map normalizeBox }
      match path with
      | none =>
        (finallyStep
          (catchClear eng "PDF cloud storage path not provided in API response." s2), [])
      | some u =>
        if u = "" then
          (finallyStep
            (catchClear eng "PDF cloud storage path not provided in API response." s2), [])
        else
          let r := loadAndRenderPdf eng u s2
          (finallyStep r.1, r.2)

/-- The whole of `fetchPdfData(id)`, given the configured base URL, the
network oracle `net` (the metadata response per URL) and the engine
oracle. Returns the final state and the trace of performed operations
(the metadata request, when issued, followed by the render pipeline). -/
def fetchPdfData (apiBaseUrl : String) (net : String → FetchOutcome)
    (eng : Engine) (id : String) (s : ViewerState) : ViewerState × List Op :=
  match fetchStart apiBaseUrl eng id s with
  | .inl done => (done, [])
  | .inr (s1, url) =>
    let r := fetchResume eng (net url) s1
    (r.1, Op.fetchMetadata url :: r.2)

/-- The component state together with the in-flight metadata fetches.
Each pending entry records the identifier the fetch was started for and
the outcome it will resolve with; the single UI thread interleaves
navigation events with fetch resolutions. -/
structure AsyncState where
  viewer : ViewerState
  pending : List (String × FetchOutcome)
deriving DecidableEq

/-- The `watch(() => route.params.pdfId, ...)` handler: if the new value
is a non-empty string different from the current `pdfId`, it sets
`pdfId`, clears `boundingBoxes`, `pdfFileUrl`, the canvas, `pdfPageView`
and `error`, sets `isLoading`, and invokes `fetchPdfData(newId)` — whose
synchronous prefix either fails on the config check or suspends at the
metadata fetch, adding it to the pending set. Otherwise nothing happens. -/
def watchPdfId (apiBaseUrl : String) (net : String → FetchOutcome) (eng : Engine)
    (newId : String) (a : AsyncState) : AsyncState :=
  if newId ≠ "" ∧ newId ≠ a.viewer.pdfId then
    let v := { a.viewer with
      pdfId := newId
      boundingBoxes := []
      pdfFileUrl := none
      raster := if eng.canvasOk then none else a.viewer.raster
      pdfPageView := none
      error := none
      isLoading := true }
    match fetchStart apiBaseUrl eng newId v with
    | .inl done => { viewer := done, pending := a.pending }
    | .inr (v1, url) => { viewer := v1, pending := a.pending ++ [(newId, net url)] }
  else a

/-- Resolution of the pending fetch at index `i`: the continuation of
`fetchPdfData` (lines 99–130) runs against the *current* shared state,
committing its results unconditionally — the code performs no comparison
of the fetch's originating identifier with the current `pdfId`. -/
def resolvePending (eng : Engine) (i : Nat) (a : AsyncState) : AsyncState :=
  match a.pending.get? i with
  | none => a
  | some entry =>
    { viewer := (fetchResume eng entry.2 a.viewer).1
      pending := a.pending.eraseIdx i }

/-- UI-thread events: a route-parameter change observed by the watcher,
or the resolution of an in-flight metadata fetch. -/
inductive UiEvent where
  | navigate (newId : String)
  | resolve (i : Nat)

/-- One UI-thread step. -/
def stepUi (apiBaseUrl : String) (net : String → FetchOutcome) (eng : Engine)
    (a : AsyncState) : UiEvent → AsyncState
  | .navigate newId => watchPdfId apiBaseUrl net eng newId a
  | .resolve i => resolvePending eng i a

/-- A sequence of UI-thread steps. -/
def runUi (apiBaseUrl : String) (net : String → FetchOutcome) (eng : Engine)
    (events : List UiEvent) (a : AsyncState) : AsyncState :=
  events.foldl (stepUi apiBaseUrl net eng) a

/-- Overlapping sample boxes: box2 fully contains the point (15, 15) as
well, but box1 comes first in server order. -/
def boxEx1 : BoundingBox :=
  { element_id := "box1", x := 0, y := 0, width := 20, height := 20, text := "a" }

/-- The second, overlapping sample box. -/
def boxEx2 : BoundingBox :=
  { element_id := "box2", x := 5, y := 5, width := 40, height := 40, text := "b" }

/-- A sample viewport at the fixed scale 1.5. -/
def viewportEx : Viewport := { scale := 3/2, width := 600, height := 800 }

/-- A raw record whose `element_id` field is present (the empty string) and
whose `id` field is "boxA". -/
def rawEmptyEid : RawBox :=
  { element_id := some "", id := some "boxA", x := 5, y := 6, width := 7, height := 8, text := "t" }

/-- A raw record with a non-empty `element_id`. -/
def rawPlainEid : RawBox :=
  { element_id := some "e7", id := some "ignored", x := 1, y := 2, width := 3, height := 4, text := "w" }

/-- A blank component state (before the initial load). -/
def viewerInit : ViewerState :=
  { pdfId := "", boundingBoxes := [], pdfFileUrl := none, isLoading := true,
    error := none, pdfPageView := none, raster := none }

/-- An engine oracle in which every step succeeds. -/
def engOk : Engine :=
  { canvasOk := true, contextOk := true, getDocument := fun _ => .ok ()
    getPage := fun _ => .ok (), viewportDims := (600, 800), render := .ok () }

/-- An engine oracle whose document load fails. -/
def engDocFail : Engine :=
  { canvasOk := true, contextOk := true, getDocument := fun _ => .error "bad pdf"
    getPage := fun _ => .ok (), viewportDims := (600, 800), render := .ok () }

/-- A sample raw box from the metadata payload. -/
def rawBoxEx : RawBox :=
  { element_id := some "box1", id := none, x := 50, y := 100, width := 150, height := 30, text := "T1" }

/-- A network oracle always answering with a well-formed payload holding
one box. -/
def netBoxes : String → FetchOutcome :=
  fun _ => .payload (some "https://x/doc.pdf") (some [rawBoxEx])

/-- A network oracle whose payload has a storage path but no box array. -/
def netNoBoxes : String → FetchOutcome :=
  fun _ => .payload (some "https://x/doc.pdf") none

/-- The raw box served for document doc1. -/
def rawBoxD1 : RawBox :=
  { element_id := some "d1-box", id := none, x := 1, y := 2, width := 3, height := 4, text := "t1" }

/-- The raw box served for document doc2. -/
def rawBoxD2 : RawBox :=
  { element_id := some "d2-box", id := none, x := 9, y := 8, width := 7, height := 6, text := "t2" }

/-- A network oracle serving distinct payloads for doc1 and doc2. -/
def netTwoDocs : String → FetchOutcome := fun url =>
  if url = "https://api.example.com/documents/doc1" then
    .payload (some "https://x/doc1.pdf") (some [rawBoxD1])
  else
    .payload (some "https://x/doc2.pdf") (some [rawBoxD2])

/-- The interleaving of claim C2: navigate to doc1, navigate to doc2
while doc1's fetch is still pending, doc2's fetch resolves, then doc1's
late fetch resolves. -/
def staleTrace : List UiEvent :=
  [.navigate "doc1", .navigate "doc2", .resolve 1, .resolve 0]

/-- The final state of the stale interleaving. -/
def staleFinal : AsyncState :=
  runUi "https://api.example.com" netTwoDocs engOk staleTrace
    { viewer := viewerInit, pending := [] }

lemma clickFirstHit_spec_some (viewport : Viewport) (x y : ℚ) :
    ∀ (boxes : List BoundingBox) (i : ℕ) (hi : i < boxes.length),
      boxContains viewport boxes[i] x y = true →
      (∀ j (hj : j < boxes.length), j < i →
        boxContains viewport boxes[j] x y = false) →
      clickFirstHit viewport x y boxes = some boxes[i].element_id := by
  intro boxes
  induction boxes with
  | nil => intro i hi; exact absurd hi (Nat.not_lt_zero i)
  | cons b rest ih =>
    intro i hi hcont hbefore
    cases i with
    | zero =>
      simp only [List.getElem_cons_zero] at hcont ⊢
      simp [clickFirstHit, hcont]
    | succ i' =>
      have hb : boxContains viewport b x y = false := by
        have := hbefore 0 (Nat.succ_pos _) (Nat.succ_pos _)
        simpa using this
      simp only [List.getElem_cons_succ] at hcont ⊢
      rw [clickFirstHit, if_neg (by simp [hb])]
      exact ih i' (Nat.lt_of_succ_lt_succ hi) hcont
        (fun j hj hji =>
          by simpa using hbefore (j + 1) (Nat.succ_lt_succ hj) (Nat.succ_lt_succ hji))

lemma clickFirstHit_spec_none (viewport : Viewport) (x y : ℚ) :
    ∀ (boxes : List BoundingBox),
      (∀ b ∈ boxes, boxContains viewport b x y = false) →
      clickFirstHit viewport x y boxes = none := by
  intro boxes
  induction boxes with
  | nil => intro _; rfl
  | cons b rest ih =>
    intro h
    rw [clickFirstHit, if_neg (by simp [h b (List.mem_cons_self b rest)])]
    exact ih (fun c hc => h c (List.mem_cons_of_mem b hc))

/-- Claim C1: for every list of bounding boxes, every transform with
scale > 0, and every click point, `handleCanvasClick` resolves to `none`
when the transform is absent; resolves to the first (lowest-index) box
whose screen rectangle contains the point; and resolves to `none` when no
box contains the point. -/
theorem handleCanvasClick_first_hit (boxes : List BoundingBox) (v : Viewport)
    (x y : ℚ) (hscale : 0 < v.scale) :
    handleCanvasClick boxes none x y = none ∧
    (∀ (i : ℕ) (hi : i < boxes.length),
      boxContains v boxes[i] x y = true →
      (∀ j (hj : j < boxes.length), j < i →
        boxContains v boxes[j] x y = false) →
      handleCanvasClick boxes (some v) x y = some boxes[i].element_id) ∧
    ((∀ b ∈ boxes, boxContains v b x y = false) →
      handleCanvasClick boxes (some v) x y = none) := by
  refine ⟨rfl, ?_, ?_⟩
  · intro i hi hcont hbefore
    exact clickFirstHit_spec_some v x y boxes i hi hcont hbefore
  · intro h
    exact clickFirstHit_spec_none v x y boxes h

theorem handleCanvasClick_first_hit_witness :
    handleCanvasClick [boxEx1, boxEx2] (some viewportEx) 15 15 = some "box1" := by
  have h := handleCanvasClick_first_hit [boxEx1, boxEx2] viewportEx 15 15 (by norm_num [viewportEx])
  have hcont : boxContains viewportEx boxEx1 15 15 = true := by
    norm_num [boxContains, boxEx1, viewportEx]
  have := h.2.1 0 (by norm_num) (by simpa using hcont)
    (fun j hj hji => absurd hji (Nat.not_lt_zero j))
  simpa [boxEx1] using this

/-- Claim C6: for every box with non-negative width and height and every
transform with scale > 0, the center of the box's screen rectangle is
contained in the box under the inclusive containment check. -/
theorem boxContains_center (b : BoundingBox) (v : Viewport)
    (hw : 0 ≤ b.width) (hh : 0 ≤ b.height) (hscale : 0 < v.scale) :
    boxContains v b (b.x * v.scale + b.width * v.scale / 2)
      (b.y * v.scale + b.height * v.scale / 2) = true := by
  have hws : 0 ≤ b.width * v.scale := mul_nonneg hw hscale.le
  have hhs : 0 ≤ b.height * v.scale := mul_nonneg hh hscale.le
  simp only [boxContains, Bool.and_eq_true, decide_eq_true_eq]
  refine ⟨⟨⟨?_, ?_⟩, ?_⟩, ?_⟩ <;> linarith

theorem boxContains_center_witness :
    boxContains viewportEx boxEx1
      (boxEx1.x * viewportEx.scale + boxEx1.width * viewportEx.scale / 2)
      (boxEx1.y * viewportEx.scale + boxEx1.height * viewportEx.scale / 2) = true :=
  boxContains_center boxEx1 viewportEx (by norm_num [boxEx1])
    (by norm_num [boxEx1]) (by norm_num [viewportEx])

/-- Counterexample to claim C7 as stated: `rawEmptyEid` has its
`element_id` field present (value `""`), yet normalization does not keep
it — the JS `||` falls back to the `id` field because `""` is falsy. -/
theorem normalizeBox_empty_eid_counterexample :
    rawEmptyEid.element_id = some "" ∧
    (normalizeBox rawEmptyEid).element_id = some "boxA" :=
  ⟨rfl, rfl⟩

/-- Claim C7 (amended): the normalized identifier equals `element_id` when
that field is present and non-empty (truthy); it falls back to `id` when
`element_id` is absent or empty; the coordinate fields and text are passed
through unchanged. -/
theorem normalizeBox_spec (box : RawBox) :
    (∀ s, box.element_id = some s → s ≠ "" →
      (normalizeBox box).element_id = some s) ∧
    (box.element_id = none ∨ box.element_id = some "" →
      (normalizeBox box).element_id = box.id) ∧
    (normalizeBox box).x = box.x ∧ (normalizeBox box).y = box.y ∧
    (normalizeBox box).width = box.width ∧ (normalizeBox box).height = box.height ∧
    (normalizeBox box).text = box.text := by
  refine ⟨?_, ?_, rfl, rfl, rfl, rfl, rfl⟩
  · intro s hs hne
    simp [normalizeBox, jsOrString, hs, hne]
  · rintro (h | h) <;> simp [normalizeBox, jsOrString, h]

theorem normalizeBox_spec_witness :
    (normalizeBox rawPlainEid).element_id = some "e7" ∧
    (normalizeBox rawPlainEid).x = rawPlainEid.x :=
  ⟨(normalizeBox_spec rawPlainEid).1 "e7" rfl (by simp),
   (normalizeBox_spec rawPlainEid).2.2.1⟩

/-- Claim C4: when the configured base URL is unset or equals the
placeholder, the load fails immediately with the configuration error and
the operation trace is empty — in particular no metadata request is
issued. -/
theorem fetchPdfData_config_guard (apiBaseUrl : String) (net : String → FetchOutcome)
    (eng : Engine) (id : String) (s : ViewerState)
    (h : apiBaseUrl = placeholderUrl ∨ apiBaseUrl = "") :
    (fetchPdfData apiBaseUrl net eng id s).1.error = some configErrorMsg ∧
    (fetchPdfData apiBaseUrl net eng id s).1.isLoading = false ∧
    (fetchPdfData apiBaseUrl net eng id s).2 = [] := by
  unfold fetchPdfData fetchStart
  rw [if_pos h]
  simp [finallyStep, catchClear]

theorem fetchPdfData_config_guard_witness :
    (fetchPdfData placeholderUrl netBoxes engOk "doc1" viewerInit).1.error =
      some configErrorMsg ∧
    (fetchPdfData placeholderUrl netBoxes engOk "doc1" viewerInit).2 = [] :=
  ⟨(fetchPdfData_config_guard placeholderUrl netBoxes engOk "doc1" viewerInit (Or.inl rfl)).1,
   (fetchPdfData_config_guard placeholderUrl netBoxes engOk "doc1" viewerInit (Or.inl rfl)).2.2⟩

lemma fetchResume_isLoading_false (eng : Engine) (outcome : FetchOutcome)
    (s : ViewerState) : (fetchResume eng outcome s).1.isLoading = false := by
  unfold fetchResume
  rcases outcome with msg | _ | ⟨path, rawBoxes⟩
  · rfl
  · rfl
  · rcases rawBoxes with _ | raws
    · rfl
    · rcases path with _ | u
      · rfl
      · by_cases hu : u = "" <;> simp [hu, finallyStep]

lemma fetchStart_inl_isLoading (apiBaseUrl : String) (eng : Engine) (id : String)
    (s done : ViewerState) (h : fetchStart apiBaseUrl eng id s = Sum.inl done) :
    done.isLoading = false := by
  unfold fetchStart at h
  by_cases hb : apiBaseUrl = placeholderUrl ∨ apiBaseUrl = ""
  · rw [if_pos hb] at h
    injection h with h
    rw [← h]
    rfl
  · rw [if_neg hb] at h
    exact absurd h (by simp)

/-- Claim C9: after every completed invocation of `fetchPdfData`, whatever
the configuration, network and engine outcomes, `isLoading` is false (the
`finally` block always runs). -/
theorem fetchPdfData_isLoading_false (apiBaseUrl : String)
    (net : String → FetchOutcome) (eng : Engine) (id : String) (s : ViewerState) :
    (fetchPdfData apiBaseUrl net eng id s).1.isLoading = false := by
  unfold fetchPdfData
  cases hfs : fetchStart apiBaseUrl eng id s with
  | inl done => exact fetchStart_inl_isLoading apiBaseUrl eng id s done hfs
  | inr p => exact fetchResume_isLoading_false eng (net p.2) p.1

/-- Claim C10: a payload that carries a storage path but whose
`boundingBoxes` field is absent (or not an array, so `.map` throws) ends
the cycle in the Error state with the box list empty. -/
theorem fetchPdfData_missing_boxes (apiBaseUrl : String)
    (net : String → FetchOutcome) (eng : Engine) (id : String) (s : ViewerState)
    (p : String) (hb1 : apiBaseUrl ≠ placeholderUrl) (hb2 : apiBaseUrl ≠ "")
    (hnet : net (apiBaseUrl ++ "/documents/" ++ id) = .payload (some p) none) :
    (fetchPdfData apiBaseUrl net eng id s).1.error =
      some "TypeError: cannot read map of undefined" ∧
    (fetchPdfData apiBaseUrl net eng id s).1.boundingBoxes = [] ∧
    (fetchPdfData apiBaseUrl net eng id s).1.isLoading = false := by
  unfold fetchPdfData fetchStart
  rw [if_neg (by simp [hb1, hb2])]
  simp [hnet, fetchResume, finallyStep, catchClear]

theorem fetchPdfData_missing_boxes_witness :
    (fetchPdfData "https://api.example.com" netNoBoxes engOk "doc1" viewerInit).1.error =
      some "TypeError: cannot read map of undefined" ∧
    (fetchPdfData "https://api.example.com" netNoBoxes engOk "doc1" viewerInit).1.boundingBoxes = [] ∧
    (fetchPdfData "https://api.example.com" netNoBoxes engOk "doc1" viewerInit).1.isLoading = false :=
  fetchPdfData_missing_boxes "https://api.example.com" netNoBoxes engOk "doc1"
    viewerInit "https://x/doc.pdf" (by decide) (by decide) rfl

/-- Claim C8: with the raster surface and its context available, a fully
successful render performs exactly clear, document load, page-1 fetch,
viewport at scale 1.5, surface resize to the viewport dimensions, and
paint, in that order; on every outcome the trace starts with the clear,
and the prior raster content never survives (the final raster is either
the freshly painted page or blank). -/
theorem loadAndRenderPdf_steps (eng : Engine) (url : String) (s : ViewerState)
    (hc : eng.canvasOk = true) (hcx : eng.contextOk = true) :
    (eng.getDocument url = .ok () → eng.getPage 1 = .ok () → eng.render = .ok () →
      (loadAndRenderPdf eng url s).2 =
        [Op.clearRect, Op.getDocument url, Op.getPage 1, Op.getViewport (3/2),
         Op.setCanvasSize eng.viewportDims.1 eng.viewportDims.2, Op.paint] ∧
      (loadAndRenderPdf eng url s).1.raster = some url) ∧
    (loadAndRenderPdf eng url s).2.head? = some Op.clearRect ∧
    ((loadAndRenderPdf eng url s).1.raster = some url ∨
     (loadAndRenderPdf eng url s).1.raster = none) := by
  unfold loadAndRenderPdf
  rw [hc, hcx]
  rw [if_neg (by simp), if_neg (by simp)]
  rcases hdoc : eng.getDocument url with e | v
  · simp [hdoc]
  · rcases hpage : eng.getPage 1 with e | v2
    · simp [hdoc, hpage]
    · rcases hrender : eng.render with e | v3
      · simp [hdoc, hpage, hrender]
      · simp [hdoc, hpage, hrender]

theorem loadAndRenderPdf_steps_witness :
    (loadAndRenderPdf engOk "https://x/doc.pdf" viewerInit).2 =
      [Op.clearRect, Op.getDocument "https://x/doc.pdf", Op.getPage 1,
       Op.getViewport (3/2), Op.setCanvasSize 600 800, Op.paint] ∧
    (loadAndRenderPdf engOk "https://x/doc.pdf" viewerInit).1.raster =
      some "https://x/doc.pdf" :=
  (loadAndRenderPdf_steps engOk "https://x/doc.pdf" viewerInit rfl rfl).1 rfl rfl rfl

/-- Counterexample to claim C3 as stated: a failing load cycle (the
engine's document load fails, a RenderError) ends in the Error state but
leaves the bounding-box list populated — the render error is caught
inside `loadAndRenderPdf` and never reaches the `catch` block of
`fetchPdfData`, so nothing clears the committed boxes. -/
theorem fetchPdfData_render_error_keeps_boxes :
    ((fetchPdfData "https://api.example.com" netBoxes engDocFail "doc1" viewerInit).1.error).isSome = true ∧
    (fetchPdfData "https://api.example.com" netBoxes engDocFail "doc1" viewerInit).1.boundingBoxes =
      [normalizeBox rawBoxEx] := by
  constructor <;>
    simp [fetchPdfData, fetchStart, netBoxes, fetchResume, engDocFail,
      loadAndRenderPdf, finallyStep, catchClear, viewerInit, placeholderUrl]

/-- Claim C3 (amended): errors thrown inside `fetchPdfData` (config,
fetch, validation and the box-map TypeError) are caught at its boundary
and leave the state in Error with the box list, the storage path and the
raster surface cleared — but the viewport transform (`pdfPageView`) is
not cleared; a render error is caught inside `loadAndRenderPdf` and
leaves the state in Error with the raster cleared but the just-committed
box list kept. -/
theorem fetchResume_error_paths (eng : Engine) (s : ViewerState) (msg u : String)
    (raws : List RawBox) (hc : eng.canvasOk = true) (hcx : eng.contextOk = true)
    (hu : u ≠ "") :
    ((fetchResume eng (.fetchError msg) s).1.error =
        some ("Error fetching metadata: " ++ msg) ∧
     (fetchResume eng (.fetchError msg) s).1.boundingBoxes = [] ∧
     (fetchResume eng (.fetchError msg) s).1.pdfFileUrl = none ∧
     (fetchResume eng (.fetchError msg) s).1.raster = none ∧
     (fetchResume eng (.fetchError msg) s).1.isLoading = false ∧
     (fetchResume eng (.fetchError msg) s).1.pdfPageView = s.pdfPageView) ∧
    ((fetchResume eng (.payload none (some raws)) s).1.error =
        some "PDF cloud storage path not provided in API response." ∧
     (fetchResume eng (.payload none (some raws)) s).1.boundingBoxes = [] ∧
     (fetchResume eng (.payload none (some raws)) s).1.raster = none ∧
     (fetchResume eng (.payload none (some raws)) s).1.pdfPageView = s.pdfPageView) ∧
    (∀ e, eng.getDocument u = .error e →
      (fetchResume eng (.payload (some u) (some raws)) s).1.error =
        some ("Failed to load PDF: " ++ e) ∧
      (fetchResume eng (.payload (some u) (some raws)) s).1.boundingBoxes =
        raws.map normalizeBox ∧
      (fetchResume eng (.payload (some u) (some raws)) s).1.raster = none ∧
      (fetchResume eng (.payload (some u) (some raws)) s).1.isLoading = false) := by
  refine ⟨?_, ?_, ?_⟩
  · simp [fetchResume, finallyStep, catchClear, hc]
  · simp [fetchResume, finallyStep, catchClear, hc]
  · intro e he
    simp [fetchResume, hu, loadAndRenderPdf, hc, hcx, he, finallyStep]

theorem fetchResume_error_paths_witness :
    (fetchResume engDocFail (.fetchError "boom") viewerInit).1.error =
      some "Error fetching metadata: boom" ∧
    (fetchResume engDocFail (.payload (some "https://x/doc.pdf") (some [rawBoxEx]))
      viewerInit).1.boundingBoxes = [normalizeBox rawBoxEx] := by
  have h := fetchResume_error_paths engDocFail viewerInit "boom" "https://x/doc.pdf"
    [rawBoxEx] rfl rfl (by decide)
  exact ⟨h.1.1, (h.2.2 "bad pdf" rfl).2.1⟩

/-- Claim C2 evaluated at the failing interleaving: with the identifier
current at doc2, doc1's late-resolving fetch is nevertheless committed —
the final shared state shows doc1's boxes, doc1's storage path and
doc1's painted page, because `fetchResume` installs results without any
identity or generation check. -/
theorem stale_fetch_overwrites_fresh_state :
    staleFinal.viewer.pdfId = "doc2" ∧
    staleFinal.viewer.boundingBoxes = [normalizeBox rawBoxD1] ∧
    staleFinal.viewer.pdfFileUrl = some "https://x/doc1.pdf" ∧
    staleFinal.viewer.raster = some "https://x/doc1.pdf" := by
  refine ⟨rfl, ?_, rfl, rfl⟩
  show staleFinal.viewer.boundingBoxes = [normalizeBox rawBoxD1]
  rfl

/-- Claim C5: on an observed identifier change to a new non-empty value
different from the current one (with the base URL configured), the box
list, storage path, transform, error and raster are all cleared and
`isLoading` set synchronously, with the new load cycle pending (not yet
resolved); when the observed value equals the current identifier,
nothing happens at all. -/
theorem watchPdfId_spec (apiBaseUrl : String) (net : String → FetchOutcome)
    (eng : Engine) (a : AsyncState) (newId : String)
    (hb1 : apiBaseUrl ≠ placeholderUrl) (hb2 : apiBaseUrl ≠ "")
    (hc : eng.canvasOk = true) (hn : newId ≠ "") :
    (newId ≠ a.viewer.pdfId →
      (watchPdfId apiBaseUrl net eng newId a).viewer.pdfId = newId ∧
      (watchPdfId apiBaseUrl net eng newId a).viewer.boundingBoxes = [] ∧
      (watchPdfId apiBaseUrl net eng newId a).viewer.pdfFileUrl = none ∧
      (watchPdfId apiBaseUrl net eng newId a).viewer.pdfPageView = none ∧
      (watchPdfId apiBaseUrl net eng newId a).viewer.error = none ∧
      (watchPdfId apiBaseUrl net eng newId a).viewer.raster = none ∧
      (watchPdfId apiBaseUrl net eng newId a).viewer.isLoading = true ∧
      (watchPdfId apiBaseUrl net eng newId a).pending =
        a.pending ++ [(newId, net (apiBaseUrl ++ "/documents/" ++ newId))]) ∧
    (newId = a.viewer.pdfId → watchPdfId apiBaseUrl net eng newId a = a) := by
  constructor
  · intro hne
    unfold watchPdfId fetchStart
    rw [hc, if_pos ⟨hn, hne⟩]
    simp [hb1, hb2]
  · intro heq
    unfold watchPdfId
    rw [if_neg (by simp [heq])]

theorem watchPdfId_spec_witness :
    (watchPdfId "https://api.example.com" netTwoDocs engOk "doc2"
      { viewer := { viewerInit with pdfId := "doc1" }, pending := [] }).viewer.boundingBoxes = [] ∧
    (watchPdfId "https://api.example.com" netTwoDocs engOk "doc1"
      { viewer := { viewerInit with pdfId := "doc1" }, pending := [] }) =
      { viewer := { viewerInit with pdfId := "doc1" }, pending := [] } := by
  have h2 := watchPdfId_spec "https://api.example.com" netTwoDocs engOk
    { viewer := { viewerInit with pdfId := "doc1" }, pending := [] } "doc2"
    (by decide) (by decide) rfl (by decide)
  have h1 := watchPdfId_spec "https://api.example.com" netTwoDocs engOk
    { viewer := { viewerInit with pdfId := "doc1" }, pending := [] } "doc1"
    (by decide) (by decide) rfl (by decide)
  exact ⟨(h2.1 (by decide)).2.1, h1.2 rfl⟩

end PdfViewer
